import Mathlib

/-!
Shallow embedding of the tax/VAT/withholding calculation engine of the
`hrms_freelancer` repository, translated from:

- `hrms_freelancer/utils/tax_calculations.py` (`TaxCalculator`),
- `hrms_freelancer/compliance/doctype/tax_treaty/tax_treaty.py`
  (`get_applicable_treaty`, `get_withholding_rate`, `get_eu_countries`),
- `hrms_freelancer/compliance/doctype/vat_configuration/vat_configuration.py`
  (`get_vat_rate`),
- `hrms_freelancer/utils/currency.py` (`get_exchange_rate`, `convert_currency`,
  `MOCK_EXCHANGE_RATES`).

Amounts and rates are modelled as rationals (`ℚ`); Python `round(x, p)`
(round half to even) is modelled by `pyRound`.  Database tables (the
`Tax Treaty` and `VAT Configuration` doctypes, and the `Currency Exchange`
lookups) are passed in explicitly as read-only snapshots, matching the
spec's description of the rule tables as injected configuration data.
Free-text note strings of the source are modelled by a `Note` datatype
carrying the data interpolated into the corresponding string.
-/

namespace HrmsFreelancer

/-- Round half to even of a rational to an integer, the tie-breaking rule of
Python's builtin `round`. -/
def roundHalfEven (q : ℚ) : ℤ :=
  if q - ⌊q⌋ < 1/2 then ⌊q⌋
  else if 1/2 < q - ⌊q⌋ then ⌊q⌋ + 1
  else if ⌊q⌋ % 2 = 0 then ⌊q⌋ else ⌊q⌋ + 1

/-- Python `round(q, p)`: round half to even at `p` decimal digits. -/
def pyRound (q : ℚ) (p : ℕ) : ℚ :=
  (roundHalfEven (q * 10 ^ p) : ℚ) / 10 ^ p

/-- `get_eu_countries` from `tax_treaty.py` (the same list appears as
`EU_MEMBER_STATES` in `vat_configuration.py`). -/
def get_eu_countries : List String :=
  ["Austria", "Belgium", "Bulgaria", "Croatia", "Cyprus", "Czech Republic",
   "Denmark", "Estonia", "Finland", "France", "Germany", "Greece", "Hungary",
   "Ireland", "Italy", "Latvia", "Lithuania", "Luxembourg", "Malta", "Netherlands",
   "Poland", "Portugal", "Romania", "Slovakia", "Slovenia", "Spain", "Sweden"]

/-- A row of the `Tax Treaty` doctype, restricted to the columns read by
`get_applicable_treaty` / `get_withholding_rate`.  Nullable rate columns are
`Option ℚ`; dates are abstract day numbers. -/
structure Treaty where
  treaty_name : String
  treaty_code : String
  country_1 : String
  country_2 : String
  status : String
  effective_date : ℕ
  expiry_date : Option ℕ
  standard_rate : Option ℚ
  reduced_rate : Option ℚ
  service_fee_rate : Option ℚ
  independent_services_rate : Option ℚ
  dividend_rate : Option ℚ
  interest_rate : Option ℚ
  royalty_rate : Option ℚ
  certificate_required : Bool
  form_required : Option String
  deriving Repr, DecidableEq

/-- The WHERE clause of the SQL query in `get_applicable_treaty`:
status is Active, the unordered country pair matches, and the treaty is not
expired as of `today`. -/
def treatyMatches (source_country target_country : String) (today : ℕ)
    (t : Treaty) : Bool :=
  t.status = "Active" &&
  ((t.country_1 = source_country && t.country_2 = target_country) ||
   (t.country_1 = target_country && t.country_2 = source_country)) &&
  (match t.expiry_date with
   | none => true
   | some d => today ≤ d)

/-- `ORDER BY effective_date DESC LIMIT 1` over the matching rows:
keep the row with the latest `effective_date` (the first one seen wins ties,
a tie-break the source leaves unspecified). -/
def pickLatest (rows : List Treaty) : Option Treaty :=
  rows.foldl
    (fun acc t =>
      match acc with
      | none => some t
      | some b => if b.effective_date < t.effective_date then some t else some b)
    none

/-- `get_applicable_treaty(source_country, target_country)` from
`tax_treaty.py`: the active, unexpired treaty for the unordered country pair
with the latest effective date, if any. -/
def get_applicable_treaty (db : List Treaty) (today : ℕ)
    (source_country target_country : String) : Option Treaty :=
  pickLatest (db.filter (treatyMatches source_country target_country today))

/-- The `rate_fields` table of `get_withholding_rate`: the ordered list of
treaty columns tried for each income type (`dict.get` falls back to
`["reduced_rate"]` for an unknown income type). -/
def rate_fields (t : Treaty) (income_type : String) : List (Option ℚ) :=
  if income_type = "services" then
    [t.independent_services_rate, t.service_fee_rate, t.reduced_rate]
  else if income_type = "dividends" then [t.dividend_rate, t.reduced_rate]
  else if income_type = "interest" then [t.interest_rate, t.reduced_rate]
  else if income_type = "royalties" then [t.royalty_rate, t.reduced_rate]
  else [t.reduced_rate]

/-- The field-scanning loop of `get_withholding_rate`: the first non-null
rate column in the order prescribed by `rate_fields`, or `none` when every
listed column is null. -/
def scanRateFields : List (Option ℚ) → Option ℚ
  | [] => none
  | some r :: _ => some r
  | none :: rest => scanRateFields rest

/-- The dictionary returned by `get_withholding_rate`.  Keys absent in some
branches of the source are `Option`/defaulted exactly as the callers read
them with `.get`; in particular the key `default_rate` is never set by any
branch, which the field `default_rate` (always `none`) records. -/
structure RateInfo where
  rate : ℚ
  treaty_applied : Bool
  treaty_name : Option String
  certificate_required : Bool
  default_rate : Option ℚ
  deriving Repr, DecidableEq

/-- The `default_rates` dictionary of `get_withholding_rate` (rates by
freelancer country when no treaty applies); `.get(..., 30)`. -/
def default_rates (country : String) : ℚ :=
  if country = "United States" then 30
  else if country = "United Kingdom" then 20
  else if country = "India" then 10
  else if country = "China" then 10
  else if country = "Brazil" then 15
  else if country = "Australia" then 30
  else if country = "Canada" then 25
  else if country = "Japan" then 20
  else if country = "South Korea" then 20
  else if country = "Russia" then 20
  else 30

/-- `get_withholding_rate(freelancer_country, company_country, income_type)`
from `tax_treaty.py`: 0 within the EU; else the treaty rate (`rate or 0`
over the scanned columns) when an applicable treaty exists; else the
country default.  `rate or 0` in Python maps `None` and `0` both to `0`,
i.e. `Option.getD · 0` on the scanned value. -/
def get_withholding_rate (db : List Treaty) (today : ℕ)
    (freelancer_country company_country : String) (income_type : String) :
    RateInfo :=
  if freelancer_country ∈ get_eu_countries ∧ company_country ∈ get_eu_countries then
    { rate := 0, treaty_applied := false, treaty_name := none,
      certificate_required := false, default_rate := none }
  else
    match get_applicable_treaty db today freelancer_country company_country with
    | some t =>
        { rate := (scanRateFields (rate_fields t income_type)).getD 0,
          treaty_applied := true,
          treaty_name := some t.treaty_name,
          certificate_required := t.certificate_required,
          default_rate := none }
    | none =>
        { rate := default_rates freelancer_country, treaty_applied := false,
          treaty_name := none, certificate_required := false,
          default_rate := none }

/-- A row of the `VAT Configuration` doctype, restricted to the columns read
by `get_vat_rate`.  Nullable rate columns are `Option ℚ`. -/
structure VATConfig where
  standard_rate : ℚ
  reduced_rate_1 : Option ℚ
  digital_services_rate : Option ℚ
  professional_services_rate : Option ℚ
  reverse_charge_b2b : Bool
  is_eu_member : Bool
  deriving Repr, DecidableEq

/-- Python `x or default` for an optional rate: both `None` and `0` are
falsy and yield the default. -/
def orFalsy (o : Option ℚ) (d : ℚ) : ℚ :=
  match o with
  | none => d
  | some x => if x = 0 then d else x

/-- The `rate_map` of `get_vat_rate` plus its `.get(service_type,
config.standard_rate)` lookup.  For `service_type = "reduced"` the stored
value is `config.reduced_rate_1`, which may be null (Python `None`); every
other entry is non-null. -/
def vatServiceRate (c : VATConfig) (service_type : String) : Option ℚ :=
  if service_type = "standard" then some c.standard_rate
  else if service_type = "reduced" then c.reduced_rate_1
  else if service_type = "digital" then
    some (orFalsy c.digital_services_rate c.standard_rate)
  else if service_type = "professional" then
    some (orFalsy c.professional_services_rate c.standard_rate)
  else some c.standard_rate

/-- The dictionary returned by `get_vat_rate`.  `rate` is `none` exactly when
the source would put Python `None` under the `rate` key (null
`reduced_rate_1` for the `reduced` service type). -/
structure VatRateInfo where
  rate : Option ℚ
  reverse_charge : Bool
  deriving Repr, DecidableEq

/-- `get_vat_rate(country, service_type, is_b2b)` from
`vat_configuration.py`, over a snapshot of the `VAT Configuration` table
keyed by country.  Unknown countries give rate 0; a B2B transaction in a
country configured with `reverse_charge_b2b` gives rate 0 with reverse
charge; otherwise the service-type rate applies. -/
def get_vat_rate (vdb : List (String × VATConfig)) (country : String)
    (service_type : String) (is_b2b : Bool) : VatRateInfo :=
  match (vdb.find? (fun p => p.1 = country)).map Prod.snd with
  | none => { rate := some 0, reverse_charge := false }
  | some c =>
      if is_b2b && c.reverse_charge_b2b then
        { rate := some 0, reverse_charge := true }
      else
        { rate := vatServiceRate c service_type, reverse_charge := false }

/-- The dictionary returned by `TaxCalculator._calculate_withholding`
(free-text `notes` strings are not modelled). -/
structure Withholding where
  rate : ℚ
  amount : ℚ
  treaty_applied : Bool
  treaty_name : Option String
  certificate_required : Bool
  deriving Repr, DecidableEq

/-- The dictionary returned by `TaxCalculator._calculate_vat`
(free-text `notes` strings are not modelled). -/
structure VatResult where
  rate : ℚ
  amount : ℚ
  reverse_charge : Bool
  deriving Repr, DecidableEq

/-- The compliance notes produced by `TaxCalculator._get_compliance_notes`,
one constructor per `notes.append(...)` site, carrying the data the source
interpolates into the corresponding string. -/
inductive Note where
  | reverseCharge : Note
  | withholdingApplied : ℚ → Note
  | treatyApplied : Option String → Note
  | euIntraCommunity : Note
  | largePayment : Note
  deriving Repr, DecidableEq

/-- The result dictionary of `TaxCalculator.calculate_all_taxes`
(the `components` list, `warnings`, and free-text fields are not modelled;
every modelled field is computed exactly as in the source). -/
structure Breakdown where
  gross_amount : ℚ
  is_cross_border : Bool
  withholding_tax : Withholding
  vat : VatResult
  gross_with_vat : ℚ
  total_deductions : ℚ
  net_payable : ℚ
  compliance_notes : List Note
  deriving Repr, DecidableEq

/-- The derived flag `is_freelancer_eu` / `is_company_eu` set in
`TaxCalculator.__init__`. -/
def is_eu (country : String) : Bool := country ∈ get_eu_countries

/-- The derived flag `is_cross_border` set in `TaxCalculator.__init__`. -/
def is_cross_border (freelancer_country company_country : String) : Bool :=
  freelancer_country ≠ company_country

/-- `TaxCalculator._calculate_withholding(amount, has_certificate)`:
EU-to-EU and domestic payments withhold nothing; otherwise the treaty/default
rate from `get_withholding_rate` applies, with the certificate adjustment
`rate = rate_info.get("default_rate", rate)` (a no-op in the source, since
no branch of `get_withholding_rate` sets a `default_rate` key) performed
only when the rate is positive, a certificate is required and absent. -/
def _calculate_withholding (tdb : List Treaty) (today : ℕ)
    (freelancer_country company_country : String)
    (amount : ℚ) (has_certificate : Bool) : Withholding :=
  if is_eu freelancer_country && is_eu company_country then
    { rate := 0, amount := 0, treaty_applied := false, treaty_name := none,
      certificate_required := false }
  else if !is_cross_border freelancer_country company_country then
    { rate := 0, amount := 0, treaty_applied := false, treaty_name := none,
      certificate_required := false }
  else
    let rate_info :=
      get_withholding_rate tdb today freelancer_country company_country "services"
    let rate := rate_info.rate
    let rate :=
      if rate > 0 && !has_certificate && rate_info.certificate_required then
        rate_info.default_rate.getD rate
      else rate
    { rate := rate,
      amount := pyRound (amount * rate / 100) 2,
      treaty_applied := rate_info.treaty_applied,
      treaty_name := rate_info.treaty_name,
      certificate_required := rate_info.certificate_required }

/-- `TaxCalculator._calculate_vat(amount, service_type)`: the four-branch
VAT rule.  The result is `none` exactly where the source would raise a
`TypeError` (a null rate reaching `amount * rate / 100`). -/
def _calculate_vat (vdb : List (String × VATConfig))
    (freelancer_country company_country : String) (is_b2b : Bool)
    (amount : ℚ) (service_type : String) : Option VatResult :=
  if is_cross_border freelancer_country company_country &&
      is_eu freelancer_country && is_eu company_country && is_b2b then
    some { rate := 0, amount := 0, reverse_charge := true }
  else if !is_eu freelancer_country && is_eu company_country && is_b2b then
    some { rate := 0, amount := 0, reverse_charge := true }
  else if is_eu freelancer_country && !is_eu company_country then
    some { rate := 0, amount := 0, reverse_charge := false }
  else
    match (get_vat_rate vdb freelancer_country service_type is_b2b).rate with
    | none => none
    | some rate =>
        some { rate := rate, amount := pyRound (amount * rate / 100) 2,
               reverse_charge := false }

/-- `TaxCalculator._get_compliance_notes(result)`: one appended note per
triggered condition, in source order.  The large-payment (AML) note fires
for `result["gross_amount"] > 10000`. -/
def _get_compliance_notes (freelancer_country company_country : String)
    (gross_amount : ℚ) (withholding : Withholding) (vat : VatResult) :
    List Note :=
  (if vat.reverse_charge then [Note.reverseCharge] else []) ++
  (if withholding.rate > 0 then
    [Note.withholdingApplied withholding.rate] ++
    (if withholding.treaty_applied then
      [Note.treatyApplied withholding.treaty_name] else [])
   else []) ++
  (if is_eu freelancer_country && is_eu company_country &&
      is_cross_border freelancer_country company_country then
    [Note.euIntraCommunity] else []) ++
  (if gross_amount > 10000 then [Note.largePayment] else [])

/-- `TaxCalculator.calculate_all_taxes(gross_amount, service_type,
has_tax_certificate)`: withholding, VAT, net amounts and compliance notes.
The treaty table `tdb`, VAT table `vdb` and the current date `today` are the
read-only rule-table snapshot the calculator queries. -/
def calculate_all_taxes (tdb : List Treaty) (vdb : List (String × VATConfig))
    (today : ℕ) (freelancer_country company_country : String) (is_b2b : Bool)
    (gross_amount : ℚ) (service_type : String) (has_tax_certificate : Bool) :
    Option Breakdown :=
  let withholding :=
    _calculate_withholding tdb today freelancer_country company_country
      gross_amount has_tax_certificate
  match _calculate_vat vdb freelancer_country company_country is_b2b
      gross_amount service_type with
  | none => none
  | some vat =>
      let gross_with_vat := gross_amount + vat.amount
      let total_deductions := withholding.amount
      let net_payable :=
        if vat.reverse_charge then gross_amount - withholding.amount
        else gross_with_vat - total_deductions
      some { gross_amount := gross_amount,
             is_cross_border := is_cross_border freelancer_country company_country,
             withholding_tax := withholding,
             vat := vat,
             gross_with_vat := gross_with_vat,
             total_deductions := total_deductions,
             net_payable := net_payable,
             compliance_notes :=
               _get_compliance_notes freelancer_country company_country
                 gross_amount withholding vat }

/-- `MOCK_EXCHANGE_RATES` from `utils/currency.py`: the reference-rate table
(EUR base) used when no `Currency Exchange` record matches. -/
def MOCK_EXCHANGE_RATES : List (String × ℚ) :=
  [("EUR", 1), ("USD", 1.08), ("GBP", 0.86), ("CHF", 0.96), ("PLN", 4.32),
   ("SEK", 11.45), ("DKK", 7.46), ("NOK", 11.65), ("CZK", 25.20),
   ("HUF", 395), ("RON", 4.98), ("BGN", 1.96), ("HRK", 7.53), ("INR", 90.50),
   ("JPY", 162), ("CNY", 7.85), ("AUD", 1.65), ("CAD", 1.47), ("BRL", 5.35),
   ("MXN", 18.90), ("KRW", 1425), ("SGD", 1.46), ("HKD", 8.45),
   ("ZAR", 20.15), ("RUB", 98.50)]

/-- `MOCK_EXCHANGE_RATES.get(code, 1.0)`. -/
def mockRate (code : String) : ℚ :=
  ((MOCK_EXCHANGE_RATES.find? (fun p => p.1 = code)).map Prod.snd).getD 1

/-- `get_exchange_rate(from_currency, to_currency, ...)` from
`utils/currency.py`.  The two `Currency Exchange` database lookups (direct
and reverse) are passed in as optional snapshot values `dbRate` /
`dbReverse` (`none` models both a missing record and a raised exception).
Python truthiness: a direct rate of `0` is falsy and skipped; the reverse
rate is used only when positive; the final fallback divides the two
mock-table rates, defaulting each absent code to `1.0`. -/
def get_exchange_rate (dbRate dbReverse : Option ℚ)
    (from_currency to_currency : String) : ℚ :=
  if from_currency = to_currency then 1
  else
    let mockFallback :=
      let from_rate := mockRate from_currency
      let to_rate := mockRate to_currency
      if 0 < to_rate then from_rate / to_rate else 1
    let reverseStep :=
      match dbReverse with
      | some r => if 0 < r then 1 / r else mockFallback
      | none => mockFallback
    match dbRate with
    | some r => if r ≠ 0 then r else reverseStep
    | none => reverseStep

/-- `convert_currency(amount, from_currency, to_currency, ..., precision)`
from `utils/currency.py`: the identity-rate shortcut still rounds, and the
cross-currency path multiplies by the looked-up rate before rounding. -/
def convert_currency (dbRate dbReverse : Option ℚ) (amount : ℚ)
    (from_currency to_currency : String) (precision : ℕ) : ℚ :=
  if from_currency = to_currency then pyRound amount precision
  else
    pyRound (amount * get_exchange_rate dbRate dbReverse from_currency to_currency)
      precision

/-! ### Concrete rule-table snapshots

Rows taken from the repository's fixture data
(`get_default_vat_configurations`, `get_default_tax_treaties`), restricted
to the modelled columns, plus two configured treaty rows exercising the
nullable-rate columns (the treaty table is injected configuration data, so
any row the doctype validation admits is a legal snapshot). -/

/-- VAT Configuration snapshot: the Netherlands, Germany, United Kingdom and
United States rows of `get_default_vat_configurations`. -/
def vatConfigsFixture : List (String × VATConfig) :=
  [("Netherlands",
    { standard_rate := 21, reduced_rate_1 := some 9,
      digital_services_rate := none, professional_services_rate := none,
      reverse_charge_b2b := true, is_eu_member := true }),
   ("Germany",
    { standard_rate := 19, reduced_rate_1 := some 7,
      digital_services_rate := none, professional_services_rate := none,
      reverse_charge_b2b := true, is_eu_member := true }),
   ("United Kingdom",
    { standard_rate := 20, reduced_rate_1 := some 5,
      digital_services_rate := none, professional_services_rate := none,
      reverse_charge_b2b := false, is_eu_member := false }),
   ("United States",
    { standard_rate := 0, reduced_rate_1 := none,
      digital_services_rate := none, professional_services_rate := none,
      reverse_charge_b2b := false, is_eu_member := false })]

/-- The `NL-US` row of `get_default_tax_treaties`: every income-specific
rate is `0`, a certificate is required. -/
def treatyNLUS : Treaty :=
  { treaty_name := "Netherlands-United States Income Tax Treaty",
    treaty_code := "NL-US",
    country_1 := "Netherlands", country_2 := "United States",
    status := "Active", effective_date := 100, expiry_date := none,
    standard_rate := some 30, reduced_rate := some 15,
    service_fee_rate := some 0, independent_services_rate := some 0,
    dividend_rate := some 15, interest_rate := some 0, royalty_rate := some 0,
    certificate_required := true, form_required := some "W-8BEN" }

/-- A configured treaty row with only `reduced_rate` set (15%) among the
columns scanned for services, and a certificate requirement. -/
def treatyCertOnlyReduced : Treaty :=
  { treaty_name := "United States-Netherlands Configured Treaty",
    treaty_code := "NL-US-2",
    country_1 := "United States", country_2 := "Netherlands",
    status := "Active", effective_date := 100, expiry_date := none,
    standard_rate := some 30, reduced_rate := some 15,
    service_fee_rate := none, independent_services_rate := none,
    dividend_rate := none, interest_rate := none, royalty_rate := none,
    certificate_required := true, form_required := none }

/-- A configured treaty row whose scanned rate columns are all null while
`standard_rate` is set. -/
def treatyNoRates : Treaty :=
  { treaty_name := "United States-Germany Configured Treaty",
    treaty_code := "DE-US-2",
    country_1 := "United States", country_2 := "Germany",
    status := "Active", effective_date := 50, expiry_date := none,
    standard_rate := some 20, reduced_rate := none,
    service_fee_rate := none, independent_services_rate := none,
    dividend_rate := none, interest_rate := none, royalty_rate := none,
    certificate_required := false, form_required := none }

/-! ### Basic facts about the rounding function -/

theorem floor_le_roundHalfEven (q : ℚ) : ⌊q⌋ ≤ roundHalfEven q := by
  unfold roundHalfEven
  split_ifs <;> omega

theorem roundHalfEven_le_floor_succ (q : ℚ) : roundHalfEven q ≤ ⌊q⌋ + 1 := by
  unfold roundHalfEven
  split_ifs <;> omega

theorem roundHalfEven_intCast (n : ℤ) : roundHalfEven (n : ℚ) = n := by
  unfold roundHalfEven
  rw [Int.floor_intCast]
  norm_num

theorem roundHalfEven_mono {q r : ℚ} (h : q ≤ r) :
    roundHalfEven q ≤ roundHalfEven r := by
  have hf : ⌊q⌋ ≤ ⌊r⌋ := Int.floor_le_floor h
  rcases eq_or_lt_of_le hf with heq | hlt
  · have hd : q - (⌊q⌋ : ℚ) ≤ r - (⌊q⌋ : ℚ) := by linarith
    unfold roundHalfEven
    rw [← heq]
    split_ifs <;> first | omega | (exfalso; linarith)
  · calc roundHalfEven q ≤ ⌊q⌋ + 1 := roundHalfEven_le_floor_succ q
      _ ≤ ⌊r⌋ := by omega
      _ ≤ roundHalfEven r := floor_le_roundHalfEven r

theorem pyRound_int_mul {q : ℚ} {p : ℕ} {n : ℤ} (h : q * 10 ^ p = (n : ℚ)) :
    pyRound q p = q := by
  have hp : ((10 : ℚ) ^ p) ≠ 0 := by positivity
  unfold pyRound
  rw [h, roundHalfEven_intCast, ← h, mul_div_assoc, div_self hp, mul_one]

theorem pyRound_zero (p : ℕ) : pyRound 0 p = 0 :=
  pyRound_int_mul (n := 0) (by norm_num)

/-- Evaluation rule for `pyRound` at a concrete argument, given the integer
part `n` of `q * 10 ^ p`. -/
theorem pyRound_eval {q : ℚ} {p : ℕ} {n : ℤ}
    (h1 : (n : ℚ) ≤ q * 10 ^ p) (h2 : q * 10 ^ p < n + 1) :
    pyRound q p =
      (if q * 10 ^ p - n < 1/2 then (n : ℚ)
       else if 1/2 < q * 10 ^ p - n then (n : ℚ) + 1
       else if n % 2 = 0 then (n : ℚ) else (n : ℚ) + 1) / 10 ^ p := by
  have hf : ⌊q * 10 ^ p⌋ = n := by
    rw [Int.floor_eq_iff]
    · exact ⟨h1, by exact_mod_cast h2⟩
  unfold pyRound roundHalfEven
  rw [hf]
  split_ifs <;> push_cast <;> ring

theorem pyRound_mono {q r : ℚ} (p : ℕ) (h : q ≤ r) :
    pyRound q p ≤ pyRound r p := by
  have h10 : (0 : ℚ) < 10 ^ p := by positivity
  have hm : q * 10 ^ p ≤ r * 10 ^ p :=
    mul_le_mul_of_nonneg_right h (le_of_lt h10)
  unfold pyRound
  exact (div_le_div_iff_of_pos_right h10).mpr
    (by exact_mod_cast roundHalfEven_mono hm)

/-! ### Shared structural lemmas about the calculator -/

/-- For a same-country request, `_calculate_withholding` returns the all-zero
withholding record (through the EU-to-EU branch or the domestic branch). -/
theorem calculate_withholding_same_country (tdb : List Treaty) (today : ℕ)
    (country : String) (amount : ℚ) (cert : Bool) :
    _calculate_withholding tdb today country country amount cert =
      { rate := 0, amount := 0, treaty_applied := false, treaty_name := none,
        certificate_required := false } := by
  unfold _calculate_withholding
  split_ifs with h1 h2
  · rfl
  · rfl
  · exact absurd (by simp [is_cross_border]) h2

/-- `vatServiceRate` never yields a null rate for the `professional` service
type (the source's default). -/
theorem vatServiceRate_professional (c : VATConfig) :
    vatServiceRate c "professional" =
      some (orFalsy c.professional_services_rate c.standard_rate) := by
  rfl

/-- `_calculate_vat` never fails for the `professional` service type. -/
theorem calculate_vat_professional_ne_none (vdb : List (String × VATConfig))
    (f c : String) (b2b : Bool) (g : ℚ) :
    _calculate_vat vdb f c b2b g "professional" ≠ none := by
  unfold _calculate_vat get_vat_rate
  rcases hfind : (vdb.find? (fun p => p.1 = f)).map Prod.snd with _ | cfg <;>
    rw [hfind] <;> split_ifs <;> try simp [vatServiceRate_professional]
  all_goals split_ifs <;> simp

/-! ### Claim theorems -/

/-- C9: for every request in which the payer country equals the payee
country, the computed breakdown has withholding rate 0 and withholding
amount 0. -/
theorem calculate_same_country_no_withholding (tdb : List Treaty)
    (vdb : List (String × VATConfig)) (today : ℕ) (country : String)
    (is_b2b : Bool) (gross : ℚ) (st : String) (cert : Bool) (b : Breakdown)
    (h : calculate_all_taxes tdb vdb today country country is_b2b gross st cert
          = some b) :
    b.withholding_tax.rate = 0 ∧ b.withholding_tax.amount = 0 := by
  unfold calculate_all_taxes at h
  rw [calculate_withholding_same_country] at h
  rcases hv : _calculate_vat vdb country country is_b2b gross st with _ | v
  · rw [hv] at h; exact absurd h (by simp)
  · rw [hv] at h
    injection h with h
    subst h
    exact ⟨rfl, rfl⟩

/-- C9 witness: a concrete domestic Netherlands payment produces a
breakdown, and the theorem applies to it. -/
theorem calculate_same_country_no_withholding_witness :
    ∃ b, calculate_all_taxes [] vatConfigsFixture 0 "Netherlands" "Netherlands"
          true 1000 "professional" false = some b ∧
        b.withholding_tax.rate = 0 ∧ b.withholding_tax.amount = 0 := by
  have h : calculate_all_taxes [] vatConfigsFixture 0 "Netherlands" "Netherlands"
      true 1000 "professional" false =
      some { gross_amount := 1000, is_cross_border := false,
             withholding_tax := { rate := 0, amount := 0, treaty_applied := false,
                                  treaty_name := none, certificate_required := false },
             vat := { rate := 0, amount := 0, reverse_charge := false },
             gross_with_vat := 1000, total_deductions := 0, net_payable := 1000,
             compliance_notes := [] } := by
    norm_num [calculate_all_taxes, _calculate_withholding, _calculate_vat,
      get_vat_rate, vatServiceRate, orFalsy, is_eu, is_cross_border,
      get_eu_countries, vatConfigsFixture, _get_compliance_notes,
      List.find?, pyRound_zero]
  exact ⟨_, h, calculate_same_country_no_withholding _ _ _ _ _ _ _ _ _ h⟩

/-- C2 counterexample: a request with gross_amount = -1000 (Germany
domestic, B2C, professional services) is not rejected: `calculate_all_taxes`
returns a full breakdown with proportionally negative tax amounts, so no
`InvalidAmount` failure exists in the code. -/
theorem calculate_negative_gross_counterexample :
    calculate_all_taxes [] vatConfigsFixture 0 "Germany" "Germany" false
        (-1000) "professional" false =
      some { gross_amount := -1000, is_cross_border := false,
             withholding_tax := { rate := 0, amount := 0, treaty_applied := false,
                                  treaty_name := none, certificate_required := false },
             vat := { rate := 19, amount := -190, reverse_charge := false },
             gross_with_vat := -1190, total_deductions := 0, net_payable := -1190,
             compliance_notes := [] } := by
  have hfind : (vatConfigsFixture.find? (fun p => p.1 = "Germany")).map Prod.snd
      = some (⟨19, some 7, none, none, true, true⟩ : VATConfig) := rfl
  have h1 : pyRound ((-1000 : ℚ) * 19 / 100) 2 = -190 := by
    rw [pyRound_int_mul (n := -19000) (by norm_num)]; norm_num
  have h2 : pyRound (-190 : ℚ) 2 = -190 :=
    pyRound_int_mul (n := -19000) (by norm_num)
  simp [calculate_all_taxes, _calculate_withholding, _calculate_vat,
    get_vat_rate, vatServiceRate, orFalsy, is_eu, is_cross_border,
    get_eu_countries, _get_compliance_notes, hfind, h1, h2]
  norm_num [h2]

/-- C2 amended: `calculate_all_taxes` performs no validation of
`gross_amount`; a strictly negative gross amount is processed by the same
formulas and always yields a breakdown (shown for the source's default
service type), never an `InvalidAmount` error. -/
theorem calculate_negative_gross_no_validation (tdb : List Treaty)
    (vdb : List (String × VATConfig)) (today : ℕ) (f c : String)
    (is_b2b : Bool) (cert : Bool) (g : ℚ) (hg : g < 0) :
    (calculate_all_taxes tdb vdb today f c is_b2b g "professional" cert).isSome
      = true := by
  unfold calculate_all_taxes
  rcases hv : _calculate_vat vdb f c is_b2b g "professional" with _ | v
  · exact absurd hv (calculate_vat_professional_ne_none vdb f c is_b2b g)
  · simp

/-- C2 witness: the amended theorem applied at gross_amount = -1000. -/
theorem calculate_negative_gross_no_validation_witness :
    ((-1000 : ℚ) < 0) ∧
      (calculate_all_taxes [] vatConfigsFixture 0 "Germany" "Germany" false
          (-1000) "professional" false).isSome = true :=
  ⟨by norm_num,
   calculate_negative_gross_no_validation [] vatConfigsFixture 0 "Germany"
     "Germany" false false (-1000) (by norm_num)⟩

/-- C3 counterexample: at gross_amount = 10000 — exactly the AML threshold —
the compliance notes are empty: the source appends the AML note only for
amounts strictly greater than 10000. -/
theorem aml_note_at_threshold_counterexample :
    calculate_all_taxes [] vatConfigsFixture 0 "Germany" "Germany" false
        10000 "standard" false =
      some { gross_amount := 10000, is_cross_border := false,
             withholding_tax := { rate := 0, amount := 0, treaty_applied := false,
                                  treaty_name := none, certificate_required := false },
             vat := { rate := 19, amount := 1900, reverse_charge := false },
             gross_with_vat := 11900, total_deductions := 0, net_payable := 11900,
             compliance_notes := [] } := by
  have hfind : (vatConfigsFixture.find? (fun p => p.1 = "Germany")).map Prod.snd
      = some (⟨19, some 7, none, none, true, true⟩ : VATConfig) := rfl
  have h1 : pyRound ((10000 : ℚ) * 19 / 100) 2 = 1900 := by
    rw [pyRound_int_mul (n := 190000) (by norm_num)]; norm_num
  have h2 : pyRound (1900 : ℚ) 2 = 1900 :=
    pyRound_int_mul (n := 190000) (by norm_num)
  simp [calculate_all_taxes, _calculate_withholding, _calculate_vat,
    get_vat_rate, vatServiceRate, orFalsy, is_eu, is_cross_border,
    get_eu_countries, _get_compliance_notes, hfind, h1, h2]
  norm_num [h2]

/-- C3 amended: the AML (large payment) compliance note is appended exactly
for gross amounts strictly greater than the 10000 threshold; at 10000
exactly no note is appended. -/
theorem aml_note_iff_gross_above_threshold (tdb : List Treaty)
    (vdb : List (String × VATConfig)) (today : ℕ) (f c : String)
    (is_b2b : Bool) (g : ℚ) (st : String) (cert : Bool) (b : Breakdown)
    (h : calculate_all_taxes tdb vdb today f c is_b2b g st cert = some b) :
    Note.largePayment ∈ b.compliance_notes ↔ 10000 < g := by
  unfold calculate_all_taxes at h
  rcases hv : _calculate_vat vdb f c is_b2b g st with _ | v
  · rw [hv] at h; exact absurd h (by simp)
  · rw [hv] at h
    injection h with h
    subst h
    dsimp only
    unfold _get_compliance_notes
    split_ifs <;> simp_all

/-- C3 witness: the amended theorem applied at gross_amount = 20000, where
the AML note is present. -/
theorem aml_note_iff_gross_above_threshold_witness :
    ∃ b, calculate_all_taxes [] vatConfigsFixture 0 "Germany" "Germany" false
          20000 "standard" false = some b ∧
        (Note.largePayment ∈ b.compliance_notes ↔ (10000 : ℚ) < 20000) := by
  have hfind : (vatConfigsFixture.find? (fun p => p.1 = "Germany")).map Prod.snd
      = some (⟨19, some 7, none, none, true, true⟩ : VATConfig) := rfl
  have h1 : pyRound ((20000 : ℚ) * 19 / 100) 2 = 3800 := by
    rw [pyRound_int_mul (n := 380000) (by norm_num)]; norm_num
  have h2 : pyRound (3800 : ℚ) 2 = 3800 :=
    pyRound_int_mul (n := 380000) (by norm_num)
  have h : calculate_all_taxes [] vatConfigsFixture 0 "Germany" "Germany" false
      20000 "standard" false =
      some { gross_amount := 20000, is_cross_border := false,
             withholding_tax := { rate := 0, amount := 0, treaty_applied := false,
                                  treaty_name := none, certificate_required := false },
             vat := { rate := 19, amount := 3800, reverse_charge := false },
             gross_with_vat := 23800, total_deductions := 0, net_payable := 23800,
             compliance_notes := [Note.largePayment] } := by
    simp [calculate_all_taxes, _calculate_withholding, _calculate_vat,
      get_vat_rate, vatServiceRate, orFalsy, is_eu, is_cross_border,
      get_eu_countries, _get_compliance_notes, hfind, h1, h2]
    norm_num [h2]
  exact ⟨_, h, aml_note_iff_gross_above_threshold _ _ _ _ _ _ _ _ _ _ h⟩

/-- C5 counterexample: a B2C request with an EU payee (Germany) and a
non-EU payer (United States) takes the export branch — rate 0, no reverse
charge — even though the payee country's standard rate is 19%, so the
claimed fall-through to local VAT for every B2C request is false. -/
theorem vat_b2c_export_branch_counterexample :
    _calculate_vat vatConfigsFixture "Germany" "United States" false 1000
        "standard" = some { rate := 0, amount := 0, reverse_charge := false } ∧
      (get_vat_rate vatConfigsFixture "Germany" "standard" false).rate = some 19 :=
  ⟨rfl, rfl⟩

/-- C5 amended: for B2C requests reverse charge never applies; a B2C request
with an EU payee and non-EU payer takes the export branch (rate 0) — the
export branch does not test the B2B flag — and every other B2C request falls
through to the payee country's VAT rate selected by service type. -/
theorem vat_b2c_branches (vdb : List (String × VATConfig)) (f c : String)
    (g : ℚ) (st : String) (v : VatResult)
    (h : _calculate_vat vdb f c false g st = some v) :
    v.reverse_charge = false ∧
      (is_eu f = true ∧ is_eu c = false → v.rate = 0 ∧ v.amount = 0) ∧
      (¬(is_eu f = true ∧ is_eu c = false) →
        (get_vat_rate vdb f st false).rate = some v.rate ∧
          v.amount = pyRound (g * v.rate / 100) 2) := by
  unfold _calculate_vat at h
  simp only [Bool.and_false, Bool.false_eq_true, if_false] at h
  rcases heu : is_eu f && !is_eu c with _ | _
  · rw [heu] at h
    simp only [Bool.false_eq_true, if_false] at h
    rcases hr : (get_vat_rate vdb f st false).rate with _ | r
    · rw [hr] at h; exact absurd h (by simp)
    · rw [hr] at h
      injection h with h
      subst h
      refine ⟨rfl, ?_, fun _ => ⟨by simpa using hr, rfl⟩⟩
      intro hc
      rw [hc.1, hc.2] at heu
      simp at heu
  · rw [heu] at h
    simp only [if_true] at h
    injection h with h
    subst h
    refine ⟨rfl, fun _ => ⟨rfl, rfl⟩, ?_⟩
    intro hc
    rcases Bool.and_eq_true_iff.mp heu with ⟨h1, h2⟩
    exact absurd ⟨h1, by simpa using h2⟩ hc

/-- C5 witness: the amended theorem applied to the concrete export-branch
B2C request (Germany payee, United States payer). -/
theorem vat_b2c_branches_witness :
    ∃ v, _calculate_vat vatConfigsFixture "Germany" "United States" false 1000
          "standard" = some v ∧
        (v.reverse_charge = false ∧
          (is_eu "Germany" = true ∧ is_eu "United States" = false →
            v.rate = 0 ∧ v.amount = 0) ∧
          (¬(is_eu "Germany" = true ∧ is_eu "United States" = false) →
            (get_vat_rate vatConfigsFixture "Germany" "standard" false).rate
                = some v.rate ∧
              v.amount = pyRound (1000 * v.rate / 100) 2)) :=
  ⟨_, rfl, vat_b2c_branches vatConfigsFixture "Germany" "United States" 1000
    "standard" _ rfl⟩

/-- The scanning loop over three optional columns equals the chained
`Option.orElse` of the columns. -/
theorem scanRateFields_three (a b c0 : Option ℚ) :
    scanRateFields [a, b, c0] =
      (a.orElse fun _ => (b.orElse fun _ => c0)) := by
  cases a <;> cases b <;> cases c0 <;> rfl

/-- C4 counterexample: for a treaty whose `independent_services_rate`,
`service_fee_rate` and `reduced_rate` are all null but whose
`standard_rate` is 20, the services rate resolves to 0 with the treaty still
applied — `standard_rate` is never consulted and no `NoRateDefined` error
exists. -/
theorem treaty_rate_all_null_counterexample :
    get_withholding_rate [treatyNoRates] 200 "United States" "Germany"
        "services" =
      { rate := 0, treaty_applied := true,
        treaty_name := some "United States-Germany Configured Treaty",
        certificate_required := false, default_rate := none } ∧
      treatyNoRates.standard_rate = some 20 :=
  ⟨rfl, rfl⟩

/-- C4 amended: outside the EU-pair shortcut, when a treaty is found the
services rate resolves by trying `independent_services_rate`, then
`service_fee_rate`, then `reduced_rate`, defaulting to 0 when all three are
null; `standard_rate` is never consulted and no error is ever raised. -/
theorem treaty_services_rate_resolution (db : List Treaty) (today : ℕ)
    (f c : String) (t : Treaty)
    (heu : ¬(f ∈ get_eu_countries ∧ c ∈ get_eu_countries))
    (ht : get_applicable_treaty db today f c = some t) :
    get_withholding_rate db today f c "services" =
      { rate := ((t.independent_services_rate.orElse
                    fun _ => (t.service_fee_rate.orElse
                      fun _ => t.reduced_rate)).getD 0),
        treaty_applied := true, treaty_name := some t.treaty_name,
        certificate_required := t.certificate_required,
        default_rate := none } := by
  unfold get_withholding_rate
  rw [if_neg heu, ht]
  simp [rate_fields, scanRateFields_three]

/-- C4 witness: the amended theorem applied to the all-null configured
treaty between the United States and Germany. -/
theorem treaty_services_rate_resolution_witness :
    get_withholding_rate [treatyNoRates] 200 "United States" "Germany"
        "services" =
      { rate := ((treatyNoRates.independent_services_rate.orElse
                    fun _ => (treatyNoRates.service_fee_rate.orElse
                      fun _ => treatyNoRates.reduced_rate)).getD 0),
        treaty_applied := true, treaty_name := some treatyNoRates.treaty_name,
        certificate_required := treatyNoRates.certificate_required,
        default_rate := none } :=
  treaty_services_rate_resolution [treatyNoRates] 200 "United States" "Germany"
    treatyNoRates (by decide) rfl

/-- C10: when a treaty is found whose scanned services rate resolves to 0
(all columns null, or the first non-null column 0), the withholding lookup
reports rate 0 with the treaty applied, and the certificate adjustment in
the calculator is skipped (it requires a strictly positive rate), so a 0%
withholding results even with a certificate required and absent. -/
theorem treaty_zero_rate_skips_certificate_adjustment (tdb : List Treaty)
    (today : ℕ) (f c : String) (t : Treaty) (amount : ℚ)
    (heu : ¬(f ∈ get_eu_countries ∧ c ∈ get_eu_countries))
    (hcb : f ≠ c)
    (ht : get_applicable_treaty tdb today f c = some t)
    (hz : (scanRateFields (rate_fields t "services")).getD 0 = 0)
    (hcert : t.certificate_required = true) :
    _calculate_withholding tdb today f c amount false =
      { rate := 0, amount := 0, treaty_applied := true,
        treaty_name := some t.treaty_name, certificate_required := true } := by
  have hri : get_withholding_rate tdb today f c "services" =
      { rate := 0, treaty_applied := true, treaty_name := some t.treaty_name,
        certificate_required := t.certificate_required, default_rate := none } := by
    unfold get_withholding_rate
    rw [if_neg heu, ht]
    simp [hz]
  have hb : (is_eu f && is_eu c) = false := by
    rcases hf : is_eu f <;> rcases hc : is_eu c <;> try rfl
    exact absurd ⟨by simpa [is_eu] using hf, by simpa [is_eu] using hc⟩ heu
  unfold _calculate_withholding
  rw [hb]
  simp [is_cross_border, hcb, hri, hcert, pyRound_zero]

/-- C10 witness: the theorem applied to the repository's NL-US fixture
treaty (services rate columns 0, certificate required) for a United
States freelancer paid by a Netherlands company. -/
theorem treaty_zero_rate_skips_certificate_adjustment_witness :
    _calculate_withholding [treatyNLUS] 200 "United States" "Netherlands"
        1000 false =
      { rate := 0, amount := 0, treaty_applied := true,
        treaty_name := some treatyNLUS.treaty_name,
        certificate_required := true } :=
  treaty_zero_rate_skips_certificate_adjustment [treatyNLUS] 200
    "United States" "Netherlands" treatyNLUS 1000 (by decide) (by decide)
    rfl rfl rfl

/-- C1: with a treaty that has only a positive `reduced_rate` (15%) and
requires a certificate, and with no certificate on file, the calculator
keeps the treaty rate 15% (withholding 150 on 1000) instead of the payee
country default 30%: the `default_rate` key the adjustment reads is never
present in the rate-lookup result, so the fallback
`rate_info.get("default_rate", rate)` is a no-op, and no compliance note
about applying the default rate exists. -/
theorem certificate_absent_keeps_treaty_rate :
    _calculate_withholding [treatyCertOnlyReduced] 200 "United States"
        "Netherlands" 1000 false =
      { rate := 15, amount := 150, treaty_applied := true,
        treaty_name := some "United States-Netherlands Configured Treaty",
        certificate_required := true } ∧
      default_rates "United States" = 30 ∧
      (get_withholding_rate [treatyCertOnlyReduced] 200 "United States"
          "Netherlands" "services").default_rate = none := by
  refine ⟨?_, rfl, rfl⟩
  have h150 : pyRound ((1000 : ℚ) * 15 / 100) 2 = 1000 * 15 / 100 :=
    pyRound_int_mul (n := 15000) (by norm_num)
  simp [_calculate_withholding, get_withholding_rate, get_applicable_treaty,
    pickLatest, treatyMatches, rate_fields, scanRateFields, is_eu,
    is_cross_border, get_eu_countries, treatyCertOnlyReduced, default_rates,
    h150]
  norm_num

/-- C6 counterexample: a same-currency conversion is rounded, not returned
unchanged: converting 0.125 USD to USD at precision 2 yields 0.12. -/
theorem convert_same_currency_rounds_counterexample :
    convert_currency none none (1/8) "USD" "USD" 2 = 12/100 ∧
      (1/8 : ℚ) ≠ 12/100 := by
  constructor
  · unfold convert_currency
    rw [if_pos rfl, pyRound_eval (n := 12) (by norm_num) (by norm_num)]
    norm_num
  · norm_num

/-- C6 amended: a same-currency conversion returns `round(x, p)` (Python
half-to-even rounding at `p` digits), which equals `x` exactly only when
`x` has at most `p` decimal digits. -/
theorem convert_same_currency_eq_pyRound (d1 d2 : Option ℚ) (x : ℚ)
    (C : String) (p : ℕ) :
    convert_currency d1 d2 x C C p = pyRound x p ∧
      ((∃ n : ℤ, x * 10 ^ p = (n : ℚ)) →
        convert_currency d1 d2 x C C p = x) := by
  constructor
  · unfold convert_currency
    rw [if_pos rfl]
  · rintro ⟨n, hn⟩
    unfold convert_currency
    rw [if_pos rfl]
    exact pyRound_int_mul hn

/-- C6 witness: the amended theorem applied at 1.25 USD, a two-decimal
amount, where rounding at precision 2 is the identity. -/
theorem convert_same_currency_eq_pyRound_witness :
    convert_currency none none (5/4) "USD" "USD" 2 = 5/4 :=
  (convert_same_currency_eq_pyRound none none (5/4) "USD" 2).2
    ⟨125, by norm_num⟩

/-- C7 counterexample: the code "XXX" is absent from the reference-rate
table, yet the lookup succeeds and returns 1.0 instead of failing with an
`UnknownCurrency` error. -/
theorem unknown_currency_defaults_counterexample :
    get_exchange_rate none none "XXX" "EUR" = 1 ∧
      MOCK_EXCHANGE_RATES.find? (fun p => p.1 = "XXX") = none := by
  refine ⟨?_, rfl⟩
  have hx : mockRate "XXX" = 1 := rfl
  have he : mockRate "EUR" = 1 := rfl
  unfold get_exchange_rate
  rw [hx, he]
  norm_num

/-- C7 amended: a currency code absent from the reference-rate table (and
with no exchange-rate record) is silently given the rate 1.0: the lookup
returns `1 / rate(to)` rather than failing with an `UnknownCurrency`
error. -/
theorem unknown_currency_rate_defaults_to_one (f t : String)
    (hne : f ≠ t)
    (hf : MOCK_EXCHANGE_RATES.find? (fun p => p.1 = f) = none)
    (hpos : 0 < mockRate t) :
    get_exchange_rate none none f t = 1 / mockRate t := by
  have hfr : mockRate f = 1 := by
    unfold mockRate
    rw [hf]
    rfl
  unfold get_exchange_rate
  rw [if_neg hne, hfr, if_pos hpos]

/-- C7 witness: the amended theorem applied to the absent code "XXX"
converted to USD (table rate 1.08). -/
theorem unknown_currency_rate_defaults_to_one_witness :
    get_exchange_rate none none "XXX" "USD" = 1 / mockRate "USD" :=
  unknown_currency_rate_defaults_to_one "XXX" "USD" (by decide) rfl
    (by rw [show mockRate "USD" = 1.08 from rfl]; norm_num)

/-- The withholding rate does not depend on the amount. -/
theorem withholding_rate_amount_indep (tdb : List Treaty) (today : ℕ)
    (f c : String) (cert : Bool) (x y : ℚ) :
    (_calculate_withholding tdb today f c x cert).rate =
      (_calculate_withholding tdb today f c y cert).rate := by
  unfold _calculate_withholding
  split_ifs <;> rfl

/-- When the withholding rate is positive, the withholding amount is the
rounded `amount * rate / 100`. -/
theorem withholding_amount_eq_pyRound (tdb : List Treaty) (today : ℕ)
    (f c : String) (cert : Bool) (x : ℚ)
    (h : 0 < (_calculate_withholding tdb today f c x cert).rate) :
    (_calculate_withholding tdb today f c x cert).amount =
      pyRound (x * (_calculate_withholding tdb today f c x cert).rate / 100)
        2 := by
  unfold _calculate_withholding at h ⊢
  split_ifs at h ⊢ <;> first | rfl | simp at h

/-- Two successful VAT computations differing only in the amount share the
same rate, and their amounts are either both 0 (the three special branches)
or both the rounded `amount * rate / 100`. -/
theorem vat_amounts_pair (vdb : List (String × VATConfig)) (f c : String)
    (b2b : Bool) (st : String) (x y : ℚ) (v w : VatResult)
    (hx : _calculate_vat vdb f c b2b x st = some v)
    (hy : _calculate_vat vdb f c b2b y st = some w) :
    w.rate = v.rate ∧
      ((v.amount = 0 ∧ w.amount = 0) ∨
       (v.amount = pyRound (x * v.rate / 100) 2 ∧
        w.amount = pyRound (y * v.rate / 100) 2)) := by
  unfold _calculate_vat at hx hy
  split_ifs at hx hy
  · injection hx with hx
    injection hy with hy
    subst hx
    subst hy
    exact ⟨rfl, Or.inl ⟨rfl, rfl⟩⟩
  · injection hx with hx
    injection hy with hy
    subst hx
    subst hy
    exact ⟨rfl, Or.inl ⟨rfl, rfl⟩⟩
  · injection hx with hx
    injection hy with hy
    subst hx
    subst hy
    exact ⟨rfl, Or.inl ⟨rfl, rfl⟩⟩
  · rcases hr : (get_vat_rate vdb f st b2b).rate with _ | r
    · rw [hr] at hx
      exact absurd hx (by simp)
    · rw [hr] at hx hy
      injection hx with hx
      injection hy with hy
      subst hx
      subst hy
      exact ⟨rfl, Or.inr ⟨rfl, rfl⟩⟩

/-- C8 amended: for two requests identical except for amounts a < b, the
computed VAT amount and withholding amount are monotone non-decreasing
(when the respective rate is positive); strictness can fail because both
amounts are rounded to 2 decimal digits. -/
theorem amounts_monotone_in_gross (tdb : List Treaty)
    (vdb : List (String × VATConfig)) (today : ℕ) (f c : String)
    (is_b2b : Bool) (st : String) (cert : Bool) (a b : ℚ)
    (ba bb : Breakdown) (hab : a < b)
    (ha : calculate_all_taxes tdb vdb today f c is_b2b a st cert = some ba)
    (hb : calculate_all_taxes tdb vdb today f c is_b2b b st cert = some bb) :
    (0 < ba.vat.rate → ba.vat.amount ≤ bb.vat.amount) ∧
      (0 < ba.withholding_tax.rate →
        ba.withholding_tax.amount ≤ bb.withholding_tax.amount) := by
  have h100 : (0 : ℚ) < 100 := by norm_num
  unfold calculate_all_taxes at ha hb
  rcases hva : _calculate_vat vdb f c is_b2b a st with _ | va
  · rw [hva] at ha; exact absurd ha (by simp)
  rcases hvb : _calculate_vat vdb f c is_b2b b st with _ | vb
  · rw [hvb] at hb; exact absurd hb (by simp)
  rw [hva] at ha
  rw [hvb] at hb
  injection ha with ha
  injection hb with hb
  subst ha
  subst hb
  dsimp only
  constructor
  · intro h0
    obtain ⟨hrate, hcases⟩ := vat_amounts_pair vdb f c is_b2b st a b va vb hva hvb
    rcases hcases with ⟨h1, h2⟩ | ⟨h1, h2⟩
    · rw [h1, h2]
    · rw [h1, h2]
      apply pyRound_mono
      exact (div_le_div_iff_of_pos_right h100).mpr
        (mul_le_mul_of_nonneg_right hab.le (le_of_lt h0))
  · intro h0
    have hr := withholding_rate_amount_indep tdb today f c cert a b
    have hA := withholding_amount_eq_pyRound tdb today f c cert a h0
    have hB := withholding_amount_eq_pyRound tdb today f c cert b
      (by rw [← hr]; exact h0)
    rw [hA, hB, ← hr]
    apply pyRound_mono
    exact (div_le_div_iff_of_pos_right h100).mpr
      (mul_le_mul_of_nonneg_right hab.le (le_of_lt h0))

/-- C8 counterexample: United Kingdom payee, Germany payer, B2C, gross 1
versus gross 1.01: both rates are 20 (> 0) yet both the VAT amounts and the
withholding amounts are 0.20 each — strict monotonicity fails at 2-decimal
rounding. -/
theorem amounts_monotone_strict_counterexample :
    ((calculate_all_taxes [] vatConfigsFixture 0 "United Kingdom" "Germany"
        false 1 "standard" false).map
      (fun r => (r.vat.rate, r.vat.amount, r.withholding_tax.rate,
        r.withholding_tax.amount)) = some (20, 1/5, 20, 1/5)) ∧
    ((calculate_all_taxes [] vatConfigsFixture 0 "United Kingdom" "Germany"
        false (101/100) "standard" false).map
      (fun r => (r.vat.rate, r.vat.amount, r.withholding_tax.rate,
        r.withholding_tax.amount)) = some (20, 1/5, 20, 1/5)) ∧
    (1 : ℚ) < 101/100 := by
  have hfUK : (vatConfigsFixture.find? (fun p => p.1 = "United Kingdom")).map
      Prod.snd = some (⟨20, some 5, none, none, false, false⟩ : VATConfig) := rfl
  have h1 : pyRound ((1 : ℚ) * 20 / 100) 2 = 1/5 := by
    rw [pyRound_int_mul (n := 20) (by norm_num)]; norm_num
  have h2 : pyRound ((101/100 : ℚ) * 20 / 100) 2 = 1/5 := by
    rw [pyRound_eval (n := 20) (by norm_num) (by norm_num)]; norm_num
  have h3 : pyRound ((1/5 : ℚ)) 2 = 1/5 :=
    pyRound_int_mul (n := 20) (by norm_num)
  refine ⟨?_, ?_, by norm_num⟩ <;>
    simp [calculate_all_taxes, _calculate_withholding, _calculate_vat,
      get_vat_rate, vatServiceRate, orFalsy, is_eu, is_cross_border,
      get_eu_countries, _get_compliance_notes, get_withholding_rate,
      get_applicable_treaty, pickLatest, default_rates, hfUK, h1, h2, h3] <;>
    norm_num [h3]

/-- C8 witness: the amended theorem applied to gross 1000 versus 2000 for
the same United Kingdom/Germany B2C request. -/
theorem amounts_monotone_in_gross_witness :
    ∃ ba bb,
      calculate_all_taxes [] vatConfigsFixture 0 "United Kingdom" "Germany"
          false 1000 "standard" false = some ba ∧
      calculate_all_taxes [] vatConfigsFixture 0 "United Kingdom" "Germany"
          false 2000 "standard" false = some bb ∧
      ((0 < ba.vat.rate → ba.vat.amount ≤ bb.vat.amount) ∧
        (0 < ba.withholding_tax.rate →
          ba.withholding_tax.amount ≤ bb.withholding_tax.amount)) := by
  have hfUK : (vatConfigsFixture.find? (fun p => p.1 = "United Kingdom")).map
      Prod.snd = some (⟨20, some 5, none, none, false, false⟩ : VATConfig) := rfl
  have hpos : (0 : ℚ) < 20 := by norm_num
  have h1 : pyRound ((1000 : ℚ) * 20 / 100) 2 = 200 := by
    rw [pyRound_int_mul (n := 20000) (by norm_num)]; norm_num
  have h2 : pyRound ((2000 : ℚ) * 20 / 100) 2 = 400 := by
    rw [pyRound_int_mul (n := 40000) (by norm_num)]; norm_num
  have h3 : pyRound ((200 : ℚ)) 2 = 200 :=
    pyRound_int_mul (n := 20000) (by norm_num)
  have h4 : pyRound ((400 : ℚ)) 2 = 400 :=
    pyRound_int_mul (n := 40000) (by norm_num)
  have hA : calculate_all_taxes [] vatConfigsFixture 0 "United Kingdom"
      "Germany" false 1000 "standard" false =
      some { gross_amount := 1000, is_cross_border := true,
             withholding_tax := { rate := 20, amount := 200,
                                  treaty_applied := false, treaty_name := none,
                                  certificate_required := false },
             vat := { rate := 20, amount := 200, reverse_charge := false },
             gross_with_vat := 1200, total_deductions := 200,
             net_payable := 1000,
             compliance_notes := [Note.withholdingApplied 20] } := by
    simp [calculate_all_taxes, _calculate_withholding, _calculate_vat,
      get_vat_rate, vatServiceRate, orFalsy, is_eu, is_cross_border,
      get_eu_countries, _get_compliance_notes, get_withholding_rate,
      get_applicable_treaty, pickLatest, default_rates, hfUK, hpos, h1, h3]
    norm_num
  have hB : calculate_all_taxes [] vatConfigsFixture 0 "United Kingdom"
      "Germany" false 2000 "standard" false =
      some { gross_amount := 2000, is_cross_border := true,
             withholding_tax := { rate := 20, amount := 400,
                                  treaty_applied := false, treaty_name := none,
                                  certificate_required := false },
             vat := { rate := 20, amount := 400, reverse_charge := false },
             gross_with_vat := 2400, total_deductions := 400,
             net_payable := 2000,
             compliance_notes := [Note.withholdingApplied 20] } := by
    simp [calculate_all_taxes, _calculate_withholding, _calculate_vat,
      get_vat_rate, vatServiceRate, orFalsy, is_eu, is_cross_border,
      get_eu_countries, _get_compliance_notes, get_withholding_rate,
      get_applicable_treaty, pickLatest, default_rates, hfUK, hpos, h2, h4]
    norm_num
  exact ⟨_, _, hA, hB,
    amounts_monotone_in_gross [] vatConfigsFixture 0 "United Kingdom"
      "Germany" false "standard" false 1000 2000 _ _ (by norm_num) hA hB⟩

end HrmsFreelancer
